import Mathlib

/-
Verification of the decko decorator toolkit.
The Python sources (src/decko) are shallowly embedded below: each Python
function that the claims depend on is translated into an executable Lean
definition, and theorems about those definitions settle the claims.
-/

namespace Decko

/-- Runtime type tags for the Python values that the decko code inspects
with isinstance. In Python, bool is a subclass of int, and classes are
themselves callable; isOfType mirrors that. -/
inductive PyType where
  | intT
  | boolT
  | strT
  | callableT
  | dictT
  | tupleT
  | noneT
  | objectT
deriving DecidableEq, Repr

/-- Scalar Python values: None, booleans, integers, strings, opaque
callables (identified by a tag), and type objects (usable as classinfo
for isinstance). -/
inductive PyAtom where
  | none
  | bool (b : Bool)
  | int (n : Int)
  | str (s : String)
  | callable (id : Nat)
  | type (t : PyType)
deriving DecidableEq, Repr

/-- A universe of Python values sufficient for the decorator machinery:
the scalars above plus one level of tuples and string-keyed dictionaries
over scalars. Every template, classinfo and default value that the decko
code builds or inspects fits this shape (decko never nests tuples inside
tuples). -/
inductive PyVal where
  | none
  | bool (b : Bool)
  | int (n : Int)
  | str (s : String)
  | callable (id : Nat)
  | type (t : PyType)
  | tuple (items : List PyAtom)
  | dict (entries : List (String × PyAtom))
deriving DecidableEq, Repr

/-- The embedding of a scalar into the value universe. -/
def PyAtom.toVal : PyAtom → PyVal
  | .none => .none
  | .bool b => .bool b
  | .int n => .int n
  | .str s => .str s
  | .callable id => .callable id
  | .type t => .type t

/-- Membership of a value in a runtime type, as the builtin isinstance
decides it for a single type argument. objectT accepts everything; boolean
values are also instances of int; type objects are callable. -/
def isOfType (v : PyVal) (t : PyType) : Bool :=
  match t with
  | .objectT => true
  | .noneT => match v with | .none => true | _ => false
  | .intT => match v with | .int _ => true | .bool _ => true | _ => false
  | .boolT => match v with | .bool _ => true | _ => false
  | .strT => match v with | .str _ => true | _ => false
  | .callableT => match v with | .callable _ => true | .type _ => true | _ => false
  | .dictT => match v with | .dict _ => true | _ => false
  | .tupleT => match v with | .tuple _ => true | _ => false

/-- The builtin isinstance with a classinfo argument that is either a type
object or a tuple of type objects, the two shapes used by returned_func
in decorators.py. Classinfo of any other shape never occurs in the decko
templates; we return false for it (the builtin would raise a TypeError
there). An empty classinfo tuple accepts nothing. -/
def isinst (v : PyVal) : PyVal → Bool
  | .type t => isOfType v t
  | .tuple infos =>
      infos.any (fun info => match info with
        | .type t => isOfType v t
        | _ => false)
  | _ => false

/-- The error kinds raised by the embedded decko code. -/
inductive PyErr where
  | typeError
  | valueError
  | immutableError
  | mutatedReferenceError
  | duplicateDecoratorError
deriving DecidableEq, Repr

/-- One iteration of the merge loop of _handle_decorator_kwargs
(decorators.py, lines 98 to 124) for a single keyword template entry
(key, correspondingValues), given the keyword arguments the decorator was
invoked with. Returns the value appended to decorator_values and the
classinfo appended to decorator_types, or raises. Branch order follows
the source: an empty tuple template raises ValueError; a non-empty tuple
template whose key was not supplied yields its first element as the value
and the remaining elements as the types to check; a non-tuple template
yields the template value itself (a user-supplied override is ignored in
that case); otherwise the user-supplied value is used and the types to
check stay at their initial default, the object type, which every value
passes. -/
def kwargStep (decKwargs : List (String × PyVal)) (key : String)
    (correspondingValues : PyVal) : Except PyErr (PyVal × PyVal) :=
  match correspondingValues with
  | .tuple [] => .error .valueError
  | .tuple (d :: ts) =>
      match List.lookup key decKwargs with
      | Option.none => .ok (d.toVal, .tuple ts)
      | some w => .ok (w, .type .objectT)
  | other => .ok (other, .type .objectT)

/-- The merge loop of _handle_decorator_kwargs over all keyword template
entries, in template order, accumulating decorator_values and
decorator_types. -/
def mergeKwargs (decKwargs : List (String × PyVal)) :
    List (String × PyVal) → Except PyErr (List PyVal × List PyVal)
  | [] => .ok ([], [])
  | (key, cv) :: rest => do
      let (v, ty) ← kwargStep decKwargs key cv
      let (vs, tys) ← mergeKwargs decKwargs rest
      .ok (v :: vs, ty :: tys)

/-- _handle_decorator_kwargs (decorators.py, lines 79 to 127): merges the
positional decorator arguments with the keyword template values and
returns the full argument tuple together with the full classinfo tuple. -/
def handle_decorator_kwargs (ttArgs : List PyVal)
    (ttKwargs : List (String × PyVal)) (decArgs : List PyVal)
    (decKwargs : List (String × PyVal)) :
    Except PyErr (List PyVal × List PyVal) := do
  let (vals, tys) ← mergeKwargs decKwargs ttKwargs
  .ok (decArgs ++ vals, ttArgs ++ tys)

/-- The two possible successful outcomes of invoking a decorator built by
deckorator: the bare form already wraps the single argument it received
(with the captured decorator argument tuple reset to empty, line 390),
while the parenthesized form returns wrapped_func, which still awaits the
function to decorate. -/
inductive DecoOutcome where
  | wrapperFor (f : PyVal) (mergedArgs : List PyVal)
  | needsFunction (mergedArgs : List PyVal)
deriving DecidableEq, Repr

/-- The tail of returned_func (decorators.py, lines 385 to 407) after the
merge: the bare-decoration shortcut fires when exactly one argument was
passed and the type template is empty; otherwise an argument count
mismatch raises ValueError and a failed isinstance check raises
TypeError, in that order, before any function is wrapped. -/
def finishDecoration (args tys : List PyVal) : Except PyErr DecoOutcome :=
  if args.length = 1 ∧ tys.length = 0 then
    .ok (.wrapperFor (args.headD .none) [])
  else if args.length ≠ tys.length then .error .valueError
  else if (args.zip tys).any (fun p => ! isinst p.1 p.2) then .error .typeError
  else .ok (.needsFunction args)

/-- returned_func (decorators.py, lines 269 to 407) on the plain-function
path: _handle_method yields (None, decorator_args) because no bound
method is involved, and on_decorator_creation is None, so the outcome is
fully described by the merged arguments and the error checks. -/
def returned_func (ttArgs : List PyVal) (ttKwargs : List (String × PyVal))
    (decArgs : List PyVal) (decKwargs : List (String × PyVal)) :
    Except PyErr DecoOutcome :=
  match handle_decorator_kwargs ttArgs ttKwargs decArgs decKwargs with
  | .error e => .error e
  | .ok (mergedArgs, mergedTypes) => finishDecoration mergedArgs mergedTypes

/-- The call behavior of final_func (decorators.py, lines 376 to 381): a
call on the wrapper forwards the decorated function, then the merged
decorator arguments, then the call arguments, to the decorator body. -/
def finalCall (body : PyVal → List PyVal → PyVal) (f : PyVal)
    (mergedArgs callArgs : List PyVal) : PyVal :=
  body f (mergedArgs ++ callArgs)

/-! ### Purity check (Decko.pure, app.py lines 153 to 203)

Python objects are mutable references. We model the reference structure
explicitly: a heap maps references to current values, argument passing
hands references over unchanged, a deep copy of an object is the value it
currently holds (our values are pure trees, so one level of copying is a
full deep copy), and an in-place mutation replaces the value stored at a
reference. -/

/-- A reference to a Python object. -/
abbrev Ref := Nat

/-- The mutable store of objects. -/
abbrev Heap := List PyVal

/-- The value currently held by a reference. -/
def Heap.get (h : Heap) (r : Ref) : PyVal := h.getD r .none

/-- get_shallow_default_arg_dict (helper/util.py, lines 68 to 91): the
first len(args) parameter names are paired with the positional argument
references, and every remaining parameter maps to the reference of its
default value. Each parameter of fn is given as its name together with
the reference of its default object (parameter names in a Python
signature are distinct, so this association list is a faithful model of
the returned dict). -/
def get_shallow_default_arg_dict (params : List (String × Ref))
    (args : List Ref) : List (String × Ref) :=
  let argNames := (params.take args.length).map Prod.fst
  argNames.zip args ++ params.drop args.length

/-- The runtime behavior of the function wrapped by Decko.pure: from a
heap and the references passed as positional arguments it produces the
heap after the call (reflecting any in-place mutations) and the returned
value. -/
structure FnBehavior where
  run : Heap → List Ref → Heap × PyVal

/-- The inner wrapper installed by Decko.pure with no callback supplied
(app.py, lines 177 to 193): build the shallow argument dictionary, take a
deep copy of it, run the function, then compare each entry with its
pre-call copy; the default event_cb raises MutatedReferenceError at the
first entry whose current value differs from the deep copy (the deep copy
of the entry at reference r is Heap.get heap r, the value held before the
call). When nothing differs, the output of the function is returned. -/
def pureCall (f : FnBehavior) (params : List (String × Ref)) (heap : Heap)
    (args : List Ref) : Except PyErr (Heap × PyVal) :=
  let inputData := get_shallow_default_arg_dict params args
  let res := f.run heap args
  if inputData.any (fun p => decide (Heap.get res.1 p.2 ≠ Heap.get heap p.2)) then
    .error .mutatedReferenceError
  else .ok res

/-! ### freeze (decorators.py lines 644 to 668 and app.py lines 535 to 557)

Both freeze variants create a subclass Immutable of the decorated class
whose constructor first runs the inherited initializer and then installs
do_freeze as the __setattr__ of the Immutable class, so that every later
attribute assignment dispatched through that class raises ImmutableError.
We model a class by the one bit of state the mechanism manipulates:
whether its __setattr__ slot has been replaced by do_freeze. -/

/-- The state of one dynamically created Immutable subclass: whether
do_freeze has been installed as its __setattr__. -/
structure ImmutableClassState where
  frozen : Bool
deriving DecidableEq, Repr

/-- A Python instance: its attribute dictionary. -/
structure PyObj where
  attrs : List (String × PyVal)
deriving DecidableEq, Repr

/-- Ordinary attribute assignment on an attribute dictionary: replace the
first binding of the name, or append a new one. -/
def setAttrList : List (String × PyVal) → String → PyVal → List (String × PyVal)
  | [], n, v => [(n, v)]
  | (k, w) :: rest, n, v =>
      if k = n then (n, v) :: rest else (k, w) :: setAttrList rest n v

/-- One attribute assignment on an instance of an Immutable subclass: it
dispatches through the __setattr__ of the class, so it raises
ImmutableError exactly when do_freeze has been installed (decorators.py,
lines 654 to 657). -/
def immutableSetattr (st : ImmutableClassState) (obj : PyObj) (name : String)
    (v : PyVal) : Except PyErr PyObj :=
  if st.frozen then .error .immutableError
  else .ok ⟨setAttrList obj.attrs name v⟩

/-- The inherited initializer of the decorated class, modelled as the
sequence of attribute assignments it performs on self, each dispatched
through the __setattr__ the Immutable class has at construction time. -/
def runInit (st : ImmutableClassState) (obj : PyObj) :
    List (String × PyVal) → Except PyErr PyObj
  | [] => .ok obj
  | (n, v) :: rest => do
      let obj2 ← immutableSetattr st obj n v
      runInit st obj2 rest

/-- Immutable.__init__ (decorators.py lines 664 to 666, identically
app.py lines 553 to 555): run the inherited initializer through the
current __setattr__ of the class, then set the __setattr__ of the
Immutable class to do_freeze. Returns the new class state and the
constructed instance. -/
def immutableConstruct (inits : List (String × PyVal))
    (st : ImmutableClassState) :
    Except PyErr (ImmutableClassState × PyObj) := do
  let obj ← runInit st ⟨[]⟩ inits
  .ok ({ frozen := true }, obj)

/-- The attribute dictionary an undecorated instance of the original
class ends up with after its initializer runs. -/
def plainInit (inits : List (String × PyVal)) : List (String × PyVal) :=
  inits.foldl (fun attrs p => setAttrList attrs p.1 p.2) []

/-- Calling the class decorated by decorators.freeze: each call runs the
freeze body anew (decorators.py lines 645 to 668), which defines a fresh
Immutable subclass, so every construction starts from an unfrozen class
and returns the frozen class state together with the instance. -/
def freezeDecoratedCall (inits : List (String × PyVal)) :
    Except PyErr (ImmutableClassState × PyObj) :=
  immutableConstruct inits { frozen := false }

/-- A sequence of numCalls constructions through the class decorated by
decorators.freeze; the calls are independent because each one creates its
own Immutable subclass. -/
def freezeDecoratedTrace (inits : List (String × PyVal)) (numCalls : Nat) :
    List (Except PyErr (ImmutableClassState × PyObj)) :=
  (List.range numCalls).map (fun _ => freezeDecoratedCall inits)

/-! ### singleton (decorators.py lines 671 to 705)

Both the thread_safe and the plain variant install a metaclass whose
__call__ consults a per-class instance cache: the underlying constructor
runs only on a cache miss, and the cached instance is returned ever
after. Under the sequential semantics of this development, the
double-checked locking of the thread_safe variant and the plain variant
reduce to the same cache discipline. -/

/-- The metaclass state for one decorated class: the cached instance, if
any, and how many times the underlying constructor has run. -/
structure SingletonState where
  inst : Option PyObj
  ctorCalls : Nat
deriving DecidableEq, Repr

/-- The state right after decoration: nothing constructed yet. -/
def initialSingletonState : SingletonState := ⟨Option.none, 0⟩

/-- Singleton.__call__ (decorators.py lines 684 to 689 and 694 to 697):
on a cache miss the underlying constructor runs on the given arguments
and the result is cached; on a hit the cached instance is returned and
the arguments are ignored. -/
def singletonCall (ctor : List PyVal → PyObj) (s : SingletonState)
    (args : List PyVal) : PyObj × SingletonState :=
  match s.inst with
  | some o => (o, s)
  | Option.none =>
      let o := ctor args
      (o, ⟨some o, s.ctorCalls + 1⟩)

/-- A sequence of invocations of the decorated class, threading the
metaclass state and collecting the returned instances. -/
def singletonTrace (ctor : List PyVal → PyObj) (s : SingletonState) :
    List (List PyVal) → List PyObj × SingletonState
  | [] => ([], s)
  | args :: rest =>
      let (o, s2) := singletonCall ctor s args
      let (os, s3) := singletonTrace ctor s2 rest
      (o :: os, s3)

/-! ### The Decko registry (app.py lines 631 to 655) -/

/-- One entry of Decko.functions: the qualified name, the identity of the
decorated callable, its property dictionary, and the names of the
decorators applied so far. -/
structure FuncEntry where
  name : String
  func : Nat
  props : List (String × PyVal)
  decorated_with : List String
deriving DecidableEq, Repr

/-- Decko.functions: an insertion-ordered mapping from qualified function
name to entry. -/
abbrev Registry := List (String × FuncEntry)

/-- get_unique_func_name (helper/util.py lines 116 to 117). -/
def get_unique_func_name (module qualname : String) : String :=
  module ++ "." ++ qualname

/-- In-place update of the entry stored under a key, preserving the
position of the key in the ordered mapping. -/
def updateEntry : Registry → String → FuncEntry → Registry
  | [], _, _ => []
  | (k, e) :: rest, key, newE =>
      if k = key then (k, newE) :: rest else (k, e) :: updateEntry rest key newE

/-- Decko._update_decoration_info (app.py lines 631 to 655): when the
function is already registered and already carries the decorator, raise
DuplicateDecoratorError without touching the registry; when it is
registered under other decorators, append the decorator name to its
decorated_with list; when it is new, append a fresh entry at the end of
the ordered mapping. The second component reports the raised error, if
any. -/
def update_decoration_info (reg : Registry) (decoratorName funcName : String)
    (funcTag : Nat) (props : List (String × PyVal)) :
    Registry × Option PyErr :=
  match List.lookup funcName reg with
  | some entry =>
      if decoratorName ∈ entry.decorated_with then
        (reg, some .duplicateDecoratorError)
      else
        (updateEntry reg funcName
          { entry with decorated_with := entry.decorated_with ++ [decoratorName] },
         Option.none)
  | Option.none =>
      (reg ++ [(funcName, ⟨funcName, funcTag, props, [decoratorName]⟩)],
       Option.none)

/-! ### try_except (debug.py lines 165 to 189) -/

/-- A raised Python exception: the identity of its class and a message.
Catching is by membership of the class in the tuple of classes to catch
(the subclass relation of the exception hierarchy is flattened into class
identity here, which is faithful for the flat exception sets decko works
with). -/
structure PyExc where
  excClass : Nat
  msg : String
deriving DecidableEq, Repr

/-- The body of try_except (debug.py lines 183 to 189) applied to the
outcome of the decorated call: a normal outcome passes through; a caught
exception first invokes error_callback (recorded in the second component)
and then either re-raises (raise_error true) or falls through, returning
None; an uncaught exception propagates with no callback. -/
def try_except_call (errorsToCatch : List Nat) (raiseError : Bool)
    (body : Except PyExc PyVal) : Except PyExc PyVal × List PyExc :=
  match body with
  | .ok v => (.ok v, [])
  | .error e =>
      if e.excClass ∈ errorsToCatch then
        (if raiseError then .error e else .ok .none, [e])
      else (.error e, [])

/-! ### execute_if (decorators.py lines 600 to 636 and
function_decorators.py lines 28 to 65) -/

/-- Python truthiness for the value universe: None, False, zero, and
empty containers are falsy. -/
def truthy : PyVal → Bool
  | .none => false
  | .bool b => b
  | .int n => n ≠ 0
  | .str s => s ≠ ""
  | .tuple items => ! items.isEmpty
  | .dict entries => ! entries.isEmpty
  | .callable _ => true
  | .type _ => true

/-- The body of execute_if (decorators.py lines 633 to 635, identically
function_decorators.py lines 60 to 63): evaluate the predicate on the
call arguments; on a truthy outcome run the decorated function and return
its output, otherwise return None without running it. The boolean records
whether the decorated function was invoked. -/
def execute_if_body (predicate func : List PyVal → PyVal)
    (args : List PyVal) : PyVal × Bool :=
  let fireEvent := predicate args
  if truthy fireEvent then (func args, true) else (.none, false)

/-! ### Concrete data used by the witness theorems -/

/-- A function behavior that mutates the object at reference 0 in place
and returns the integer 7. -/
def mutatingBehavior : FnBehavior :=
  ⟨fun h _ => (h.set 0 (.int 99), .int 7)⟩

/-- A function behavior that mutates nothing and returns the integer 7. -/
def pureBehavior : FnBehavior :=
  ⟨fun h _ => (h, .int 7)⟩

/-- A constructor used by the singleton witness. -/
def sampleCtor : List PyVal → PyObj := fun _ => ⟨[("v", PyVal.int 1)]⟩

/-- A registry holding a single function already decorated with dec1. -/
def sampleEntry : FuncEntry :=
  ⟨"m.f", 0, [], ["dec1"]⟩

/-- The sample registry used by the registry witness. -/
def sampleRegistry : Registry := [("m.f", sampleEntry)]

/-! ### Helper lemmas -/

/-- With no keyword template the merge returns the positional arguments
and the positional type template unchanged. -/
theorem handle_decorator_kwargs_nil (ttArgs decArgs : List PyVal)
    (decKwargs : List (String × PyVal)) :
    handle_decorator_kwargs ttArgs [] decArgs decKwargs = .ok (decArgs, ttArgs) := by
  show Except.ok (decArgs ++ [], ttArgs ++ []) = _
  simp

/-- finishDecoration raises TypeError when the argument count matches a
non-empty template but some isinstance check fails. -/
theorem finishDecoration_typeError (args tys : List PyVal)
    (hlen : args.length = tys.length) (hty : tys ≠ [])
    (hbad : (args.zip tys).any (fun p => ! isinst p.1 p.2) = true) :
    finishDecoration args tys = .error .typeError := by
  have h0 : tys.length ≠ 0 := by
    simpa [List.length_eq_zero] using hty
  unfold finishDecoration
  rw [if_neg (by omega), if_neg (by omega), if_pos hbad]

/-- finishDecoration raises ValueError when the argument count differs
from the length of a non-empty template. -/
theorem finishDecoration_valueError (args tys : List PyVal)
    (hlen : args.length ≠ tys.length) (hty : tys ≠ []) :
    finishDecoration args tys = .error .valueError := by
  have h0 : tys.length ≠ 0 := by
    simpa [List.length_eq_zero] using hty
  unfold finishDecoration
  rw [if_neg (by omega), if_pos hlen]

/-- Invoking a decorator whose template is a single keyword entry, with
no positional arguments: the outcome is determined by the merge step for
that entry. -/
theorem returned_func_single_kwarg (k : String) (cv : PyVal)
    (decKwargs : List (String × PyVal)) (v ty : PyVal)
    (h : kwargStep decKwargs k cv = .ok (v, ty)) :
    returned_func [] [(k, cv)] [] decKwargs = finishDecoration [v] [ty] := by
  unfold returned_func handle_decorator_kwargs mergeKwargs
  rw [h]
  rfl

/-- Unfolding lemma for pureCall. -/
theorem pureCall_eq (f : FnBehavior) (params : List (String × Ref))
    (heap : Heap) (args : List Ref) :
    pureCall f params heap args =
      if (get_shallow_default_arg_dict params args).any
          (fun p => decide (Heap.get (f.run heap args).1 p.2 ≠ Heap.get heap p.2)) then
        .error .mutatedReferenceError
      else .ok (f.run heap args) := rfl

/-- Running the inherited initializer through an unfrozen class performs
exactly the ordinary attribute assignments. -/
theorem runInit_unfrozen (inits : List (String × PyVal))
    (attrs : List (String × PyVal)) :
    runInit { frozen := false } ⟨attrs⟩ inits =
      .ok ⟨inits.foldl (fun a p => setAttrList a p.1 p.2) attrs⟩ := by
  induction inits generalizing attrs with
  | nil => rfl
  | cons p rest ih =>
      simpa [runInit, immutableSetattr] using ih (setAttrList attrs p.1 p.2)

/-- Once the cache is filled, every call returns the cached instance and
the state never changes again. -/
theorem singletonTrace_cached (ctor : List PyVal → PyObj) (o : PyObj)
    (k : Nat) (calls : List (List PyVal)) :
    singletonTrace ctor ⟨some o, k⟩ calls =
      (calls.map (fun _ => o), ⟨some o, k⟩) := by
  induction calls with
  | nil => rfl
  | cons a rest ih => simp [singletonTrace, singletonCall, ih]

/-- Updating the entry under a key present in the registry makes lookup
return the new entry. -/
theorem lookup_updateEntry (reg : Registry) (key : String)
    (e old : FuncEntry) (h : List.lookup key reg = some old) :
    List.lookup key (updateEntry reg key e) = some e := by
  induction reg with
  | nil => simp [List.lookup] at h
  | cons p rest ih =>
      obtain ⟨k, v⟩ := p
      by_cases hk : key = k
      · subst hk
        simp [updateEntry, List.lookup]
      · have hbeq : (key == k) = false := beq_eq_false_iff_ne.mpr hk
        have hkk : ¬ k = key := fun h2 => hk h2.symm
        simp only [List.lookup, hbeq] at h
        simp [updateEntry, List.lookup, hkk, hbeq, ih h]

/-- updateEntry preserves the keys and their order. -/
theorem updateEntry_keys (reg : Registry) (key : String) (e : FuncEntry) :
    (updateEntry reg key e).map Prod.fst = reg.map Prod.fst := by
  induction reg with
  | nil => rfl
  | cons p rest ih =>
      obtain ⟨k, v⟩ := p
      by_cases hk : k = key
      · simp [updateEntry, hk]
      · simp [updateEntry, hk, ih]

/-! ### Claims -/

/-- Claim C1: for a decorator built with a non-empty positional type
template, invoking it with the right number of arguments but some
argument failing its isinstance check raises TypeError, and invoking it
with a different number of arguments raises ValueError; in both cases
returned_func raises instead of producing a wrapper, so the decorated
function is never wrapped. -/
theorem claim1_deckorator_template_errors (ttArgs decArgs : List PyVal)
    (decKwargs : List (String × PyVal)) (hne : ttArgs ≠ []) :
    (decArgs.length = ttArgs.length →
      (∃ i, ∃ (h1 : i < decArgs.length) (h2 : i < ttArgs.length),
        isinst (decArgs.get ⟨i, h1⟩) (ttArgs.get ⟨i, h2⟩) = false) →
      returned_func ttArgs [] decArgs decKwargs = .error .typeError) ∧
    (decArgs.length ≠ ttArgs.length →
      returned_func ttArgs [] decArgs decKwargs = .error .valueError) := by
  constructor
  · intro hlen hex
    obtain ⟨i, h1, h2, hbad⟩ := hex
    have hany : (decArgs.zip ttArgs).any (fun p => ! isinst p.1 p.2) = true := by
      apply List.any_eq_true.mpr
      have hz : i < (decArgs.zip ttArgs).length := by
        rw [List.length_zip]; omega
      refine ⟨(decArgs.zip ttArgs).get ⟨i, hz⟩, List.get_mem _ _ _, ?_⟩
      have hzz : (decArgs.zip ttArgs).get ⟨i, hz⟩ =
          (decArgs.get ⟨i, h1⟩, ttArgs.get ⟨i, h2⟩) := by
        simp [List.get_eq_getElem, List.getElem_zip]
      rw [hzz]
      simp only [List.get_eq_getElem] at hbad
      simp [hbad]
    rw [returned_func, handle_decorator_kwargs_nil]
    exact finishDecoration_typeError _ _ hlen hne hany
  · intro hlen
    rw [returned_func, handle_decorator_kwargs_nil]
    exact finishDecoration_valueError _ _ hlen hne

/-- Witness for claim C1: a one-type template int invoked with a string
raises TypeError, and invoked with no argument raises ValueError. -/
theorem claim1_witness :
    returned_func [PyVal.type .intT] [] [PyVal.str "a"] [] = .error .typeError ∧
    returned_func [PyVal.type .intT] [] [] [] = .error .valueError := by
  constructor
  · exact (claim1_deckorator_template_errors [PyVal.type .intT] [PyVal.str "a"] []
      (by decide)).1 (by decide) ⟨0, by decide, by decide, by decide⟩
  · exact (claim1_deckorator_template_errors [PyVal.type .intT] [] []
      (by decide)).2 (by decide)

/-- Claim C2: with an empty type template and no keyword template, the
bare form immediately wraps its single argument with an empty captured
decorator argument tuple, the parenthesized form returns a wrapper
awaiting the function with the same empty tuple, and a call on either
wrapper computes the decorator body applied to the function followed by
the call arguments. -/
theorem claim2_bare_and_parenthesized_agree (body : PyVal → List PyVal → PyVal)
    (f : PyVal) (callArgs : List PyVal) :
    returned_func [] [] [f] [] = .ok (.wrapperFor f []) ∧
    returned_func [] [] [] [] = .ok (.needsFunction []) ∧
    finalCall body f [] callArgs = body f callArgs := by
  exact ⟨rfl, rfl, rfl⟩

/-- Counterexample for claim C3: with the keyword template
kwarg_val = (10, Callable), invoking the decorator with the override
kwarg_val = "oops" succeeds and threads the string, although the string
is not an instance of the declared allowed type Callable; no TypeError is
raised, because a user-supplied keyword override is only checked against
the object type. -/
theorem claim3_counterexample :
    returned_func [] [("kwarg_val", .tuple [.int 10, .type .callableT])]
        [] [("kwarg_val", .str "oops")] =
      .ok (.needsFunction [.str "oops"]) ∧
    isinst (.str "oops") (.tuple [.type .callableT]) = false := by
  exact ⟨rfl, rfl⟩

/-- Claim C3 as amended: for a keyword template k = (d, T1, ..., Tm),
invoking the decorator without k threads the default d, which is itself
type-checked against T1, ..., Tm (TypeError when it matches none, in
particular always when m = 0); invoking it with k = v threads v with no
check against the declared types (v is checked against the object type,
which every value passes); a keyword template holding an empty tuple
raises ValueError. -/
theorem claim3_amended_kwarg_template (k : String) (d : PyAtom)
    (ts : List PyAtom) (v : PyVal) :
    (returned_func [] [(k, .tuple (d :: ts))] [] [] =
      if isinst d.toVal (.tuple ts) then .ok (.needsFunction [d.toVal])
      else .error .typeError) ∧
    (returned_func [] [(k, .tuple (d :: ts))] [] [(k, v)] =
      .ok (.needsFunction [v])) ∧
    (returned_func [] [(k, .tuple [])] [] [] = .error .valueError) := by
  refine ⟨?_, ?_, rfl⟩
  · rw [returned_func_single_kwarg k _ _ _ _
      (show kwargStep [] k (.tuple (d :: ts)) = .ok (d.toVal, .tuple ts) from rfl)]
    by_cases h : isinst d.toVal (.tuple ts)
    · simp [finishDecoration, h]
    · simp [finishDecoration, h]
  · rw [returned_func_single_kwarg k _ _ _ _
      (show kwargStep [(k, v)] k (.tuple (d :: ts)) = .ok (v, .type .objectT) by
        unfold kwargStep
        rw [List.lookup_cons_self])]
    rfl

/-- Claim C4: a call through the Decko.pure wrapper (with no callback
supplied) raises MutatedReferenceError exactly when some entry of the
shallow argument dictionary (positional arguments plus unfilled defaults)
holds, after the call, a value unequal to the deep copy of its pre-call
value; when nothing was mutated, the call returns exactly the output of
the wrapped function. -/
theorem claim4_pure_detects_mutation (f : FnBehavior)
    (params : List (String × Ref)) (heap : Heap) (args : List Ref) :
    (pureCall f params heap args = .error .mutatedReferenceError ↔
      ∃ p ∈ get_shallow_default_arg_dict params args,
        Heap.get (f.run heap args).1 p.2 ≠ Heap.get heap p.2) ∧
    ((∀ p ∈ get_shallow_default_arg_dict params args,
        Heap.get (f.run heap args).1 p.2 = Heap.get heap p.2) →
      pureCall f params heap args = .ok (f.run heap args)) := by
  have hiff : ((get_shallow_default_arg_dict params args).any
      (fun p => decide (Heap.get (f.run heap args).1 p.2 ≠ Heap.get heap p.2)) = true) ↔
      ∃ p ∈ get_shallow_default_arg_dict params args,
        Heap.get (f.run heap args).1 p.2 ≠ Heap.get heap p.2 := by
    simp [List.any_eq_true]
  constructor
  · constructor
    · intro herr
      by_cases h : (get_shallow_default_arg_dict params args).any
          (fun p => decide (Heap.get (f.run heap args).1 p.2 ≠ Heap.get heap p.2)) = true
      · exact hiff.mp h
      · rw [pureCall_eq, if_neg h] at herr
        exact Except.noConfusion herr
    · intro hex
      rw [pureCall_eq, if_pos (hiff.mpr hex)]
  · intro hall
    have hfalse : ¬ ((get_shallow_default_arg_dict params args).any
        (fun p => decide (Heap.get (f.run heap args).1 p.2 ≠ Heap.get heap p.2)) = true) := by
      intro h
      obtain ⟨p, hp, hne⟩ := hiff.mp h
      exact hne (hall p hp)
    rw [pureCall_eq, if_neg hfalse]

/-- Witness for claim C4: a function that mutates its positional argument
in place trips the purity check, and a function that mutates nothing
returns its output. -/
theorem claim4_witness :
    pureCall mutatingBehavior [("a", 0)] [PyVal.int 1] [0] =
      .error .mutatedReferenceError ∧
    pureCall pureBehavior [("a", 0)] [PyVal.int 1] [0] =
      .ok ([PyVal.int 1], PyVal.int 7) := by
  constructor
  · exact (claim4_pure_detects_mutation mutatingBehavior [("a", 0)]
      [PyVal.int 1] [0]).1.mpr ⟨("a", 0), by decide, by decide⟩
  · exact (claim4_pure_detects_mutation pureBehavior [("a", 0)]
      [PyVal.int 1] [0]).2 (by decide)

/-- Claim C5: constructing an instance of the Immutable subclass created
by freeze succeeds, performing exactly the attribute assignments the
inherited initializer of the original class performs (all other behavior
is inherited), and afterwards the class has the do_freeze override
installed; with that override in place, every attribute assignment on an
instance raises ImmutableError. -/
theorem claim5_freeze_blocks_assignment (inits : List (String × PyVal))
    (obj : PyObj) (n : String) (v : PyVal) :
    immutableConstruct inits { frozen := false } =
      .ok ({ frozen := true }, ⟨plainInit inits⟩) ∧
    immutableSetattr { frozen := true } obj n v = .error .immutableError := by
  constructor
  · unfold immutableConstruct
    rw [runInit_unfrozen]
    rfl
  · rfl

/-- Claim C6: with the instance cache starting empty, a sequence of
invocations of the singleton-decorated class runs the underlying
constructor at most once, never before the first invocation, and every
invocation returns the instance constructed from the first invocation
arguments, so the arguments of later invocations have no effect. -/
theorem claim6_singleton_idempotent (ctor : List PyVal → PyObj)
    (calls : List (List PyVal)) :
    (singletonTrace ctor initialSingletonState calls).2.ctorCalls =
      min calls.length 1 ∧
    ∀ o ∈ (singletonTrace ctor initialSingletonState calls).1,
      o = ctor (calls.headD []) := by
  cases calls with
  | nil => exact ⟨rfl, by intro o ho; simp [singletonTrace] at ho⟩
  | cons a rest =>
      rw [show singletonTrace ctor initialSingletonState (a :: rest) =
        (ctor a :: (singletonTrace ctor ⟨some (ctor a), 1⟩ rest).1,
          (singletonTrace ctor ⟨some (ctor a), 1⟩ rest).2) from rfl]
      rw [singletonTrace_cached]
      constructor
      · simp
      · intro o ho
        simp at ho
        rcases ho with h | ⟨_, h⟩ <;> simp [h]

/-- Witness for claim C6: two invocations with different arguments run
the constructor once and both return the instance built from the first
invocation arguments. -/
theorem claim6_witness :
    (singletonTrace sampleCtor initialSingletonState
        [[PyVal.int 5], [PyVal.int 6]]).2.ctorCalls = 1 ∧
    ∀ o ∈ (singletonTrace sampleCtor initialSingletonState
        [[PyVal.int 5], [PyVal.int 6]]).1, o = sampleCtor [PyVal.int 5] := by
  refine ⟨(claim6_singleton_idempotent sampleCtor
    [[PyVal.int 5], [PyVal.int 6]]).1.trans (by decide), ?_⟩
  intro o ho
  exact (claim6_singleton_idempotent sampleCtor
    [[PyVal.int 5], [PyVal.int 6]]).2 o ho

/-- Claim C7: the Decko registry is keyed by the qualified name
module.qualname; registering a function under a decorator it already
carries reports DuplicateDecoratorError and returns the registry
unchanged; registering a known function under a new decorator appends the
decorator name to the decorated_with list of its entry while preserving
the keys and their order; registering a new function appends an entry
holding its name, the function, its properties and the one-element
decorator list. -/
theorem claim7_registry_update (reg : Registry)
    (decName module qualname : String) (tag : Nat)
    (props : List (String × PyVal)) :
    (∀ entry, List.lookup (get_unique_func_name module qualname) reg = some entry →
      decName ∈ entry.decorated_with →
      update_decoration_info reg decName (get_unique_func_name module qualname) tag props
        = (reg, some PyErr.duplicateDecoratorError)) ∧
    (∀ entry, List.lookup (get_unique_func_name module qualname) reg = some entry →
      decName ∉ entry.decorated_with →
      (update_decoration_info reg decName (get_unique_func_name module qualname) tag props).2
          = Option.none ∧
      List.lookup (get_unique_func_name module qualname)
          (update_decoration_info reg decName (get_unique_func_name module qualname) tag props).1
        = some { entry with decorated_with := entry.decorated_with ++ [decName] } ∧
      (update_decoration_info reg decName (get_unique_func_name module qualname) tag props).1.map
          Prod.fst = reg.map Prod.fst) ∧
    (List.lookup (get_unique_func_name module qualname) reg = Option.none →
      update_decoration_info reg decName (get_unique_func_name module qualname) tag props
        = (reg ++ [(get_unique_func_name module qualname,
            ⟨get_unique_func_name module qualname, tag, props, [decName]⟩)],
           Option.none)) := by
  refine ⟨?_, ?_, ?_⟩
  · intro entry hlook hmem
    simp only [update_decoration_info, hlook]
    rw [if_pos hmem]
  · intro entry hlook hmem
    simp only [update_decoration_info, hlook]
    rw [if_neg hmem]
    exact ⟨rfl, lookup_updateEntry reg _ _ entry hlook, updateEntry_keys _ _ _⟩
  · intro hlook
    simp only [update_decoration_info, hlook]

/-- Witness for claim C7: all three registration outcomes at a concrete
registry. -/
theorem claim7_witness :
    update_decoration_info sampleRegistry "dec1" (get_unique_func_name "m" "f") 0 []
      = (sampleRegistry, some PyErr.duplicateDecoratorError) ∧
    List.lookup (get_unique_func_name "m" "f")
        (update_decoration_info sampleRegistry "dec2"
          (get_unique_func_name "m" "f") 0 []).1
      = some ⟨"m.f", 0, [], ["dec1", "dec2"]⟩ ∧
    update_decoration_info sampleRegistry "dec1" (get_unique_func_name "m" "g") 7 []
      = (sampleRegistry ++ [("m.g", ⟨"m.g", 7, [], ["dec1"]⟩)], Option.none) := by
  refine ⟨?_, ?_, ?_⟩
  · exact (claim7_registry_update sampleRegistry "dec1" "m" "f" 0 []).1
      sampleEntry (by decide) (by decide)
  · exact ((claim7_registry_update sampleRegistry "dec2" "m" "f" 0 []).2.1
      sampleEntry (by decide) (by decide)).2.1
  · exact (claim7_registry_update sampleRegistry "dec1" "m" "g" 7 []).2.2 (by decide)

/-- Claim C8: through try_except with raise_error false, a caught
exception invokes the error callback and the call returns None instead of
propagating; with raise_error true the exception is re-raised after the
callback; an exception outside the catch set propagates unchanged with no
callback; a call that raises nothing returns the wrapped output with no
callback. -/
theorem claim8_try_except (catchSet : List Nat) (e : PyExc) (v : PyVal) :
    (try_except_call catchSet false (.ok v) = (.ok v, []) ∧
     try_except_call catchSet true (.ok v) = (.ok v, [])) ∧
    (e.excClass ∈ catchSet →
      try_except_call catchSet false (.error e) = (.ok .none, [e])) ∧
    (e.excClass ∈ catchSet →
      try_except_call catchSet true (.error e) = (.error e, [e])) ∧
    (e.excClass ∉ catchSet →
      try_except_call catchSet false (.error e) = (.error e, []) ∧
      try_except_call catchSet true (.error e) = (.error e, [])) := by
  refine ⟨⟨rfl, rfl⟩, ?_, ?_, ?_⟩
  · intro h
    simp [try_except_call, h]
  · intro h
    simp [try_except_call, h]
  · intro h
    exact ⟨by simp [try_except_call, h], by simp [try_except_call, h]⟩

/-- Witness for claim C8: concrete caught, re-raised and uncaught
exceptions. -/
theorem claim8_witness :
    try_except_call [3] false (.error ⟨3, "boom"⟩) = (.ok .none, [⟨3, "boom"⟩]) ∧
    try_except_call [3] true (.error ⟨3, "boom"⟩) =
      (.error ⟨3, "boom"⟩, [⟨3, "boom"⟩]) ∧
    try_except_call [3] false (.error ⟨4, "other"⟩) = (.error ⟨4, "other"⟩, []) := by
  refine ⟨?_, ?_, ?_⟩
  · exact (claim8_try_except [3] ⟨3, "boom"⟩ .none).2.1 (by decide)
  · exact (claim8_try_except [3] ⟨3, "boom"⟩ .none).2.2.1 (by decide)
  · exact ((claim8_try_except [3] ⟨4, "other"⟩ .none).2.2.2 (by decide)).1

/-- Claim C9: the predicate argument of execute_if is accepted by the
deckorator type template Callable, and a call on the decorated function
returns the output of the wrapped function when the predicate applied to
the call arguments is truthy, and returns None without invoking the
wrapped function when it is falsy. -/
theorem claim9_execute_if (pid : Nat) (predicate func : List PyVal → PyVal)
    (args : List PyVal) :
    returned_func [.type .callableT] [] [.callable pid] [] =
      .ok (.needsFunction [.callable pid]) ∧
    (truthy (predicate args) = true →
      execute_if_body predicate func args = (func args, true)) ∧
    (truthy (predicate args) = false →
      execute_if_body predicate func args = (.none, false)) := by
  refine ⟨rfl, ?_, ?_⟩
  · intro h
    simp [execute_if_body, h]
  · intro h
    simp [execute_if_body, h]

/-- Witness for claim C9: a concrete truthy predicate fires the wrapped
function and a concrete falsy predicate suppresses it. -/
theorem claim9_witness :
    execute_if_body (fun _ => PyVal.bool true) (fun _ => PyVal.int 5) [] =
      (PyVal.int 5, true) ∧
    execute_if_body (fun _ => PyVal.bool false) (fun _ => PyVal.int 5) [] =
      (PyVal.none, false) := by
  constructor
  · exact (claim9_execute_if 0 (fun _ => PyVal.bool true)
      (fun _ => PyVal.int 5) []).2.1 (by decide)
  · exact (claim9_execute_if 0 (fun _ => PyVal.bool false)
      (fun _ => PyVal.int 5) []).2.2 (by decide)

/-- Counterexample for claim C10: through the freeze decorator of
decorators.py, the second construction does not raise ImmutableError; the
freeze body runs anew on every call and creates a fresh Immutable
subclass, so the initializer assignments of every construction succeed. -/
theorem claim10_counterexample :
    (freezeDecoratedTrace [("a", PyVal.int 1)] 2).getLast? =
      some (.ok ({ frozen := true }, ⟨[("a", PyVal.int 1)]⟩)) ∧
    (freezeDecoratedTrace [("a", PyVal.int 1)] 2).getLast? ≠
      some (.error PyErr.immutableError) := by
  constructor
  · rfl
  · intro h
    rw [show (freezeDecoratedTrace [("a", PyVal.int 1)] 2).getLast? =
      some (.ok ({ frozen := true }, ⟨[("a", PyVal.int 1)]⟩)) from rfl] at h
    exact Except.noConfusion (Option.some.inj h)

/-- Claim C10 as amended: the claimed behavior is exactly that of the
shared Immutable subclass returned by Decko.freeze in app.py: the first
construction succeeds (initializer assignments go through the not yet
overridden setattr) and installs the override, after which every
attribute assignment on an instance raises ImmutableError and every later
construction that assigns at least one attribute raises ImmutableError.
The freeze decorator of decorators.py instead creates a fresh subclass
per construction, so there every construction succeeds and returns an
instance of an already-frozen fresh class. -/
theorem claim10_amended_freeze_timing (inits : List (String × PyVal))
    (obj : PyObj) (n : String) (v : PyVal) (hne : inits ≠ []) :
    immutableConstruct inits { frozen := false } =
      .ok ({ frozen := true }, ⟨plainInit inits⟩) ∧
    immutableSetattr { frozen := true } obj n v = .error .immutableError ∧
    immutableConstruct inits { frozen := true } = .error .immutableError ∧
    freezeDecoratedCall inits = .ok ({ frozen := true }, ⟨plainInit inits⟩) := by
  refine ⟨?_, rfl, ?_, ?_⟩
  · unfold immutableConstruct
    rw [runInit_unfrozen]
    rfl
  · cases inits with
    | nil => exact absurd rfl hne
    | cons p rest =>
        obtain ⟨pn, pv⟩ := p
        rfl
  · unfold freezeDecoratedCall immutableConstruct
    rw [runInit_unfrozen]
    rfl

/-- Witness for claim C10 as amended: concrete one-assignment
initializer. -/
theorem claim10_witness :
    immutableConstruct [("a", PyVal.int 1)] { frozen := true } =
      .error .immutableError ∧
    freezeDecoratedCall [("a", PyVal.int 1)] =
      .ok ({ frozen := true }, ⟨[("a", PyVal.int 1)]⟩) := by
  constructor
  · exact (claim10_amended_freeze_timing [("a", PyVal.int 1)] ⟨[]⟩ "x" PyVal.none
      (by decide)).2.2.1
  · exact (claim10_amended_freeze_timing [("a", PyVal.int 1)] ⟨[]⟩ "x" PyVal.none
      (by decide)).2.2.2

end Decko
